import Mathlib

/-!
Shallow embedding of the Polymer entity-component-system core and the
particle subsystem from `src/lib-engine/gfx/gl/gl-particle-system.cpp`.

The embedding covers:
* the `entity_orchestrator` class: `create_entity`, `add_system`,
  `create_system`, `register_system_for_type`;
* the `particle_parallel_for` workload partitioner (the index ranges each
  spawned worker traverses);
* the index/bounds structure of `gl_particle_system::update` and
  `gl_particle_system::add`.

C++ machine integers are modelled as follows: the `entity` counter is a
`uint64_t`, so its increment is taken modulo `2 ^ 64`; the partitioner's
`int` arithmetic is modelled over `Int` (the claims under study stay far
below the 32-bit range, where C++ `int` arithmetic is exact), with C++
truncating division rendered as `Int.tdiv` / `Int.tmod`.  `std::thread`
effects are irrelevant to the partitioning arithmetic: the embedding
returns the list of half-open index ranges the workers would traverse.
Integer division by zero is undefined behaviour in C++ and is rendered as
`Option.none`.
-/

------------------------------------------------------------------------
-- Entity / orchestrator data model (gl-particle-system.cpp, ECS part)
------------------------------------------------------------------------

/-- `using entity = uint64_t`: entity values are 64-bit unsigned integers,
modelled as naturals that are always reduced modulo `2 ^ 64`. -/
abbrev entity := Nat

/-- `constexpr entity kInvalidEntity = 0`. -/
def kInvalidEntity : entity := 0

/-- `poly_typeid`: an opaque, stable, process-wide type identifier
(produced by `get_typeid<T>()`), modelled as a natural number. -/
abbrev poly_typeid := Nat

/-- A `base_system *` pointer value.  Address `0` models `nullptr`;
`new` never returns `0`. -/
abbrev sys_ptr := Nat

/-- The `entity_orchestrator` class state:

* `system_type_map : std::unordered_map<poly_typeid, poly_typeid>`
  (component/definition type → owning system type), modelled as an
  association list with unique keys;
* `systems : std::unordered_map<poly_typeid, base_system *>`, modelled
  the same way;
* `entity_counter : entity`, the auto-incrementing id source, starting
  at `0`.

The `std::mutex createMutex` carries no data and is not part of the
sequential state. -/
structure entity_orchestrator where
  system_type_map : List (poly_typeid × poly_typeid)
  systems : List (poly_typeid × sys_ptr)
  entity_counter : entity
deriving DecidableEq

/-- A freshly constructed orchestrator: empty maps, counter `0`. -/
def orchestrator_init : entity_orchestrator :=
  { system_type_map := [], systems := [], entity_counter := 0 }

/-- `m[k] = v` on an association list: overwrite the binding of `k` if one
exists (as `std::unordered_map::operator[]` assignment does), otherwise
append a new binding. -/
def assoc_set : List (Nat × Nat) → Nat → Nat → List (Nat × Nat)
  | [], k, v => [(k, v)]
  | (k', v') :: rest, k, v =>
      if k' = k then (k, v) :: rest else (k', v') :: assoc_set rest k v

/-- `entity_orchestrator::register_system_for_type(system_type, def_type)`:
`system_type_map[def_type] = system_type;`. -/
def register_system_for_type (o : entity_orchestrator)
    (system_type def_type : poly_typeid) : entity_orchestrator :=
  { o with system_type_map := assoc_set o.system_type_map def_type system_type }

/-- `entity_orchestrator::add_system(system_type, system)`:

```cpp
if (!system) return;
auto itr = systems.find(system_type);
if (itr == systems.end()) systems.emplace(system_type, system);
```
-/
def add_system (o : entity_orchestrator) (system_type : poly_typeid)
    (system : sys_ptr) : entity_orchestrator :=
  if system = 0 then o
  else
    match o.systems.lookup system_type with
    | some _ => o
    | none => { o with systems := o.systems ++ [(system_type, system)] }

/-- `entity_orchestrator::create_system<T>(args...)`:

```cpp
T * ptr = new T(std::forward<Args>(args)...);
add_system(get_typeid<T>(), ptr);
return ptr;
```

`t` is `get_typeid<T>()` and `fresh` is the address `new` hands back (a
fresh non-null address never used before). -/
def create_system (o : entity_orchestrator) (t : poly_typeid)
    (fresh : sys_ptr) : sys_ptr × entity_orchestrator :=
  (fresh, add_system o t fresh)

/-- `entity_orchestrator::create_entity()`:

```cpp
std::lock_guard<std::mutex> guard(createMutex);
const entity e = ++entity_counter;
return e;
```

`entity_counter` is a `uint64_t`, so the pre-increment wraps modulo
`2 ^ 64`. -/
def create_entity (o : entity_orchestrator) : entity × entity_orchestrator :=
  let e := (o.entity_counter + 1) % 2 ^ 64
  (e, { o with entity_counter := e })

/-- State of the orchestrator after `m` consecutive `create_entity()`
calls. -/
def create_entities (o : entity_orchestrator) : Nat → entity_orchestrator
  | 0 => o
  | m + 1 => (create_entity (create_entities o m)).2

/-- The value returned by the `m`-th `create_entity()` call (1-indexed)
in a sequence of calls starting from orchestrator state `o`. -/
def entity_of_call (o : entity_orchestrator) (m : Nat) : entity :=
  (create_entity (create_entities o (m - 1))).1

------------------------------------------------------------------------
-- Basic facts about the entity counter
------------------------------------------------------------------------

lemma create_entities_counter (m : Nat) :
    (create_entities orchestrator_init m).entity_counter = m % 2 ^ 64 := by
  induction m with
  | zero => rfl
  | succ m ih =>
      show ((create_entities orchestrator_init m).entity_counter + 1) % 2 ^ 64 = _
      rw [ih, Nat.mod_add_mod]

lemma entity_of_call_eq (m : Nat) (hm : 1 ≤ m) :
    entity_of_call orchestrator_init m = m % 2 ^ 64 := by
  unfold entity_of_call create_entity
  simp only [create_entities_counter, Nat.mod_add_mod]
  congr 1
  omega

------------------------------------------------------------------------
-- C1: entity id uniqueness / monotonicity
------------------------------------------------------------------------

/-- C1 (counterexample): `entity_counter` is a `uint64_t` and wraps, so in
a long enough sequence of `create_entity()` calls the claim fails: the
`2 ^ 64`-th call returns `0`, and the `(2 ^ 64 + 1)`-th call repeats the
value of the first call — the returned values are neither all non-zero
nor pairwise distinct nor strictly increasing. -/
theorem C1_counterexample :
    entity_of_call orchestrator_init (2 ^ 64) = 0 ∧
    entity_of_call orchestrator_init (2 ^ 64 + 1) =
      entity_of_call orchestrator_init 1 ∧
    (1 : Nat) < 2 ^ 64 := by
  refine ⟨?_, ?_, by norm_num⟩
  · rw [entity_of_call_eq _ (by norm_num), Nat.mod_self]
  · rw [entity_of_call_eq _ (by norm_num), entity_of_call_eq _ (by norm_num),
      Nat.add_mod_left]

/-- C1 (amended): within the first `2 ^ 64 - 1` `create_entity()` calls on
one orchestrator, all returned values are pairwise distinct, none equals
`0`, and each returned value is strictly greater than every earlier one
in call order. -/
theorem C1_entity_ids_unique_monotone (i j : Nat) (hi : 1 ≤ i) (hij : i < j)
    (hj : j < 2 ^ 64) :
    entity_of_call orchestrator_init i ≠ 0 ∧
    entity_of_call orchestrator_init j ≠ 0 ∧
    entity_of_call orchestrator_init i < entity_of_call orchestrator_init j := by
  rw [entity_of_call_eq i hi, entity_of_call_eq j (by omega)]
  have h2 : (2 : Nat) ^ 64 = 18446744073709551616 := by norm_num
  rw [h2] at hj ⊢
  show i % 18446744073709551616 ≠ (0 : Nat) ∧
    j % 18446744073709551616 ≠ (0 : Nat) ∧
    i % 18446744073709551616 < j % 18446744073709551616
  omega

/-- C1 (witness): the amended claim instantiated at calls 1 and 2. -/
theorem C1_witness :
    1 ≤ 1 ∧ 1 < 2 ∧ 2 < 2 ^ 64 ∧
    (entity_of_call orchestrator_init 1 ≠ 0 ∧
     entity_of_call orchestrator_init 2 ≠ 0 ∧
     entity_of_call orchestrator_init 1 < entity_of_call orchestrator_init 2) :=
  ⟨Nat.le_refl 1, by norm_num, by norm_num,
    C1_entity_ids_unique_monotone 1 2 (by norm_num) (by norm_num) (by norm_num)⟩

------------------------------------------------------------------------
-- Association-list lemmas for the two unordered_map fields
------------------------------------------------------------------------

lemma lookup_append_of_none {l1 : List (Nat × Nat)} (l2 : List (Nat × Nat))
    {k : Nat} (h : l1.lookup k = none) :
    (l1 ++ l2).lookup k = l2.lookup k := by
  induction l1 with
  | nil => rfl
  | cons p rest ih =>
      obtain ⟨k', v'⟩ := p
      rw [List.cons_append]
      by_cases hk : k = k'
      · exfalso
        simp [List.lookup, show (k == k') = true from beq_iff_eq.mpr hk] at h
      · have hb : (k == k') = false := beq_eq_false_iff_ne.mpr hk
        simp only [List.lookup, hb] at h ⊢
        exact ih h

lemma assoc_set_lookup_self (m : List (Nat × Nat)) (k v : Nat) :
    (assoc_set m k v).lookup k = some v := by
  induction m with
  | nil => simp [assoc_set, List.lookup]
  | cons p rest ih =>
      obtain ⟨k', v'⟩ := p
      by_cases hk : k' = k
      · simp [assoc_set, hk, List.lookup]
      · have hb : (k == k') = false := beq_eq_false_iff_ne.mpr (Ne.symm hk)
        simp only [assoc_set, if_neg hk, List.lookup, hb]
        exact ih

lemma assoc_set_keys_mem (m : List (Nat × Nat)) (k v a : Nat) :
    a ∈ (assoc_set m k v).map Prod.fst ↔ a = k ∨ a ∈ m.map Prod.fst := by
  induction m with
  | nil => simp [assoc_set]
  | cons p rest ih =>
      obtain ⟨k', v'⟩ := p
      by_cases hk : k' = k
      · subst hk
        simp [assoc_set]
      · simp only [assoc_set, if_neg hk, List.map_cons, List.mem_cons, ih]
        tauto

lemma assoc_set_keys_nodup (m : List (Nat × Nat)) (k v : Nat)
    (h : (m.map Prod.fst).Nodup) :
    ((assoc_set m k v).map Prod.fst).Nodup := by
  induction m with
  | nil => simp [assoc_set]
  | cons p rest ih =>
      obtain ⟨k', v'⟩ := p
      simp only [List.map_cons, List.nodup_cons] at h
      by_cases hk : k' = k
      · subst hk
        have hset : assoc_set ((k', v') :: rest) k' v = (k', v) :: rest := by
          simp [assoc_set]
        rw [hset, List.map_cons, List.nodup_cons]
        exact h
      · simp only [assoc_set, if_neg hk, List.map_cons, List.nodup_cons]
        refine ⟨?_, ih h.2⟩
        rw [assoc_set_keys_mem]
        push_neg
        exact ⟨hk, h.1⟩

------------------------------------------------------------------------
-- C5: add_system inserts only if absent; duplicates are silent no-ops
------------------------------------------------------------------------

lemma add_system_of_lookup_some {o : entity_orchestrator} {t : poly_typeid}
    (s : sys_ptr) {v : sys_ptr} (h : o.systems.lookup t = some v) :
    add_system o t s = o := by
  unfold add_system
  rw [h]
  split_ifs <;> rfl

/-- C5: `add_system(t, s)` inserts `s` only when no system is registered
under `t`; a second `add_system` call for the same type identifier leaves
the registry completely unchanged (the originally inserted instance stays
registered, no replacement happens), and the duplicate call reports no
error (it returns normally with the same state). -/
theorem C5_add_system_insert_if_absent (o : entity_orchestrator)
    (t : poly_typeid) (s1 s2 : sys_ptr) (h1 : s1 ≠ 0)
    (h0 : o.systems.lookup t = none) :
    (add_system o t s1).systems.lookup t = some s1 ∧
    add_system (add_system o t s1) t s2 = add_system o t s1 := by
  have hl : (add_system o t s1).systems.lookup t = some s1 := by
    unfold add_system
    rw [if_neg h1, h0]
    show (o.systems ++ [(t, s1)]).lookup t = some s1
    rw [lookup_append_of_none _ h0]
    simp [List.lookup]
  exact ⟨hl, add_system_of_lookup_some s2 hl⟩

/-- C5 (witness): the theorem at the empty orchestrator, type id 7,
pointers 1 and 2. -/
theorem C5_witness :
    (1 : sys_ptr) ≠ 0 ∧ orchestrator_init.systems.lookup 7 = none ∧
    ((add_system orchestrator_init 7 1).systems.lookup 7 = some 1 ∧
     add_system (add_system orchestrator_init 7 1) 7 2 =
       add_system orchestrator_init 7 1) :=
  ⟨by decide, by decide,
    C5_add_system_insert_if_absent orchestrator_init 7 1 2 (by decide) (by decide)⟩

------------------------------------------------------------------------
-- C9: add_system with nullptr is a silent no-op; registry stays non-null
------------------------------------------------------------------------

/-- C9: `add_system(t, nullptr)` returns the registry completely
unchanged (`if (!system) return;`); consequently a registry whose stored
pointers are all non-null keeps that invariant across any `add_system`
call, so no null instance is ever stored. -/
theorem C9_add_system_null_noop (o : entity_orchestrator) (t : poly_typeid)
    (s : sys_ptr) (hinv : ∀ pr ∈ o.systems, pr.2 ≠ 0) :
    add_system o t 0 = o ∧ ∀ pr ∈ (add_system o t s).systems, pr.2 ≠ 0 := by
  refine ⟨rfl, ?_⟩
  intro pr hpr
  by_cases hs : s = 0
  · subst hs
    exact hinv pr hpr
  · unfold add_system at hpr
    rw [if_neg hs] at hpr
    cases hmatch : o.systems.lookup t with
    | some v => rw [hmatch] at hpr; exact hinv pr hpr
    | none =>
        rw [hmatch] at hpr
        simp only [List.mem_append, List.mem_singleton] at hpr
        rcases hpr with h | h
        · exact hinv pr h
        · subst h; exact hs

/-- C9 (witness): the theorem at the empty orchestrator, type id 1,
pointer 5. -/
theorem C9_witness :
    (∀ pr ∈ orchestrator_init.systems, pr.2 ≠ 0) ∧
    (add_system orchestrator_init 1 0 = orchestrator_init ∧
     ∀ pr ∈ (add_system orchestrator_init 1 5).systems, pr.2 ≠ 0) :=
  ⟨by decide, C9_add_system_null_noop orchestrator_init 1 5 (by decide)⟩

------------------------------------------------------------------------
-- C6: type-router registration and lookup
------------------------------------------------------------------------

/-- C6: after `register_system_for_type(S, C)` a lookup of component type
`C` in `system_type_map` resolves to system type `S`; a second
registration for the same component type wins (the later system type
replaces the earlier one); and the router keeps at most one owning system
type per component type (the map keys stay duplicate-free). -/
theorem C6_register_system_for_type_routes (o : entity_orchestrator)
    (S1 S2 C : poly_typeid) (hnd : (o.system_type_map.map Prod.fst).Nodup) :
    (register_system_for_type o S1 C).system_type_map.lookup C = some S1 ∧
    (register_system_for_type (register_system_for_type o S1 C) S2 C).system_type_map.lookup C
      = some S2 ∧
    ((register_system_for_type o S1 C).system_type_map.map Prod.fst).Nodup :=
  ⟨assoc_set_lookup_self o.system_type_map C S1,
   assoc_set_lookup_self _ C S2,
   assoc_set_keys_nodup o.system_type_map C S1 hnd⟩

/-- C6 (witness): the theorem at the empty orchestrator, system types 1
and 2, component type 3. -/
theorem C6_witness :
    (orchestrator_init.system_type_map.map Prod.fst).Nodup ∧
    ((register_system_for_type orchestrator_init 1 3).system_type_map.lookup 3 = some 1 ∧
     (register_system_for_type (register_system_for_type orchestrator_init 1 3) 2 3).system_type_map.lookup 3
       = some 2 ∧
     ((register_system_for_type orchestrator_init 1 3).system_type_map.map Prod.fst).Nodup) :=
  ⟨by decide, C6_register_system_for_type_routes orchestrator_init 1 2 3 (by decide)⟩

------------------------------------------------------------------------
-- C7: create_system constructs, registers and returns the instance
------------------------------------------------------------------------

/-- C7 (counterexample): when a system of the same type identifier is
already registered, `create_system` still constructs a fresh instance and
returns it, but `add_system` silently drops it, so the returned handle is
not the registered instance.  Concretely: after `create_system` for type
7 returned address 1, a second `create_system` for type 7 (whose `new`
yields address 2) returns 2 while the registry still maps 7 to 1. -/
theorem C7_counterexample :
    (create_system (create_system orchestrator_init 7 1).2 7 2).1 = 2 ∧
    ((create_system (create_system orchestrator_init 7 1).2 7 2).2).systems.lookup 7
      = some 1 ∧
    some (create_system (create_system orchestrator_init 7 1).2 7 2).1 ≠
      ((create_system (create_system orchestrator_init 7 1).2 7 2).2).systems.lookup 7 := by
  decide

/-- C7 (amended): when no system is registered under `T`'s type
identifier yet, `create_system<T>` constructs exactly one new instance
(the fresh non-null address `new` returns), registers exactly that
instance keyed by the type identifier (the registry grows by exactly this
one binding), and returns a handle to the registered instance. -/
theorem C7_create_system_registers_when_absent (o : entity_orchestrator)
    (t : poly_typeid) (fresh : sys_ptr) (hf : fresh ≠ 0)
    (habs : o.systems.lookup t = none) :
    (create_system o t fresh).1 = fresh ∧
    (create_system o t fresh).2.systems = o.systems ++ [(t, fresh)] ∧
    (create_system o t fresh).2.systems.lookup t = some fresh := by
  unfold create_system add_system
  rw [if_neg hf, habs]
  refine ⟨rfl, rfl, ?_⟩
  show (o.systems ++ [(t, fresh)]).lookup t = some fresh
  rw [lookup_append_of_none _ habs]
  simp [List.lookup]

/-- C7 (witness): the amended claim at the empty orchestrator, type id 5,
fresh address 1. -/
theorem C7_witness :
    (1 : sys_ptr) ≠ 0 ∧ orchestrator_init.systems.lookup 5 = none ∧
    ((create_system orchestrator_init 5 1).1 = 1 ∧
     (create_system orchestrator_init 5 1).2.systems =
       orchestrator_init.systems ++ [(5, 1)] ∧
     (create_system orchestrator_init 5 1).2.systems.lookup 5 = some 1) :=
  ⟨by decide, by decide,
    C7_create_system_registers_when_absent orchestrator_init 5 1 (by decide) (by decide)⟩

------------------------------------------------------------------------
-- particle_parallel_for: workload partitioning
------------------------------------------------------------------------

/-- `const int hint = (target_concurrency == 0) ?
std::thread::hardware_concurrency() : target_concurrency;`

`h` is `target_concurrency` and `p` is the value
`std::thread::hardware_concurrency()` reports (`0` when undetectable). -/
def par_hint (h p : Int) : Int :=
  if h = 0 then p else h

/-- `const int n_threads = std::min(n, (hint == 0) ? 4 : hint);` -/
def n_threads_of (n h p : Int) : Int :=
  min n (if par_hint h p = 0 then 4 else par_hint h p)

/-- `const int n_max_tasks_per_thread = (n / n_threads) +
(n % n_threads == 0 ? 0 : 1);` — C++ `int` division truncates toward
zero, hence `Int.tdiv` / `Int.tmod`.  (When `n_threads` is `0` this C++
expression divides by zero; `particle_parallel_for_ranges` below guards
that case.) -/
def n_max_tasks_of (n h p : Int) : Int :=
  Int.tdiv n (n_threads_of n h p) +
    (if Int.tmod n (n_threads_of n h p) = 0 then 0 else 1)

/-- `const int n_lacking_tasks = n_max_tasks_per_thread * n_threads - n;` -/
def n_lacking_of (n h p : Int) : Int :=
  n_max_tasks_of n h p * n_threads_of n h p - n

/-- `inner_loop`: `const int inclusive_start_index = thread_index *
n_max_tasks_per_thread - n_lacking_tasks_so_far;` where
`n_lacking_tasks_so_far = std::max(thread_index - n_threads +
n_lacking_tasks, 0)`. -/
def worker_start (n h p j : Int) : Int :=
  j * n_max_tasks_of n h p -
    max (j - n_threads_of n h p + n_lacking_of n h p) 0

/-- `inner_loop`: `const int exclusive_end_index = inclusive_start_index +
n_max_tasks_per_thread - (thread_index - n_threads + n_lacking_tasks >= 0
? 1 : 0);` -/
def worker_end (n h p j : Int) : Int :=
  worker_start n h p j + n_max_tasks_of n h p -
    (if 0 ≤ j - n_threads_of n h p + n_lacking_of n h p then 1 else 0)

/-- Number of indices worker `j` processes: its loop runs over the
half-open range `[worker_start, worker_end)`. -/
def worker_size (n h p j : Int) : Int :=
  worker_end n h p j - worker_start n h p j

/-- `particle_parallel_for(n, fn, target_concurrency)`: the function
spawns `n_threads` workers (`for (int j = 0; j < n_threads; ++j)`), each
traversing its half-open index range, and joins them all before
returning.  The embedding returns the list of per-worker ranges.  When
`n_threads = 0` (for instance `n = 0`), the C++ code evaluates
`n / n_threads` — integer division by zero, undefined behaviour —
rendered here as `none`. -/
def particle_parallel_for_ranges (n h p : Int) : Option (List (Int × Int)) :=
  if n_threads_of n h p = 0 then none
  else
    some ((List.range (n_threads_of n h p).toNat).map fun j =>
      (worker_start n h p (Int.ofNat j), worker_end n h p (Int.ofNat j)))

------------------------------------------------------------------------
-- C2: partition coverage of [0, n)
------------------------------------------------------------------------

/-- C2 (code bug): the claim promises exact coverage of `[0, n)` for every
`n ≥ 0`, including `n = 0`, but at `n = 0` the code computes
`n_threads = std::min(0, ...) = 0` and then evaluates `n / n_threads` —
an integer division by zero, undefined behaviour, instead of the promised
empty coverage.  The conjuncts evaluate the embedding at `n = 0` for a
zero and a positive concurrency hint, and record that the worker count
there is `0`. -/
theorem C2_partition_n_zero_divides_by_zero :
    particle_parallel_for_ranges 0 0 4 = none ∧
    particle_parallel_for_ranges 0 3 4 = none ∧
    n_threads_of 0 0 4 = 0 ∧ n_threads_of 0 3 4 = 0 := by
  decide

------------------------------------------------------------------------
-- C4: the computed worker count
------------------------------------------------------------------------

/-- Worker-count formula stated by the spec's words, for comparison with
the code's `n_threads_of`: `k = min(n, max(h, 4-if-h-is-0))`, read
literally as `min n (max h 4)` when `h = 0` and `min n (max h h)`
otherwise.  This formula ignores the detected hardware parallelism. -/
def spec_worker_count (n h : Int) : Int :=
  min n (max h (if h = 0 then 4 else h))

/-- C4 (counterexample): with `n = 8`, `h = 0` and detected hardware
parallelism `p = 8`, the code computes `min(8, 8) = 8` workers, but the
spec's literal formula `min(n, max(h, 4))` yields `min(8, 4) = 4`; the
two are not equivalent, so the claim's "equivalently" clause fails. -/
theorem C4_counterexample :
    n_threads_of 8 0 8 = 8 ∧ spec_worker_count 8 0 = 4 ∧
    n_threads_of 8 0 8 ≠ spec_worker_count 8 0 := by
  decide

/-- C4 (amended): the computed worker count equals `min(n, h)` when
`h ≠ 0`, and `min(n, p)` when `h = 0`, with `4` substituted for an
undetectable hardware parallelism (`p = 0`); the spec's literal formula
`min(n, max(h, 4))` is dropped, since it disagrees whenever `h = 0` and
`p ∉ {0, 4}`. -/
theorem C4_n_threads_formula (n h p : Int) :
    n_threads_of n h p =
      min n (if h = 0 then (if p = 0 then 4 else p) else h) := by
  unfold n_threads_of par_hint
  by_cases hh : h = 0 <;> by_cases hp : p = 0 <;> simp [hh, hp]

------------------------------------------------------------------------
-- C3: how the remainder is distributed over workers
------------------------------------------------------------------------

lemma n_threads_pos (n h p : Int) (hn : 1 ≤ n) (hh : 0 ≤ h) (hp : 0 ≤ p) :
    1 ≤ n_threads_of n h p := by
  unfold n_threads_of par_hint
  by_cases hh0 : h = 0 <;> by_cases hp0 : p = 0 <;>
    simp only [hh0, hp0, if_pos, if_neg, if_true, if_false, le_min_iff] <;>
    omega

lemma n_max_lacking_bounds (n h p : Int) (hn : 1 ≤ n) (hh : 0 ≤ h)
    (hp : 0 ≤ p) :
    1 ≤ n_max_tasks_of n h p ∧ 0 ≤ n_lacking_of n h p ∧
    n_lacking_of n h p < n_threads_of n h p := by
  have hk : 1 ≤ n_threads_of n h p := n_threads_pos n h p hn hh hp
  have hspec : n_threads_of n h p * Int.tdiv n (n_threads_of n h p) +
      Int.tmod n (n_threads_of n h p) = n := Int.tdiv_add_tmod n _
  have hr0 : 0 ≤ Int.tmod n (n_threads_of n h p) :=
    Int.tmod_nonneg _ (by omega)
  have hrk : Int.tmod n (n_threads_of n h p) < n_threads_of n h p :=
    Int.tmod_lt_of_pos n (by omega)
  have hq0 : 0 ≤ Int.tdiv n (n_threads_of n h p) :=
    Int.tdiv_nonneg (by omega) (by omega)
  have hmax : n_max_tasks_of n h p = Int.tdiv n (n_threads_of n h p) +
      (if Int.tmod n (n_threads_of n h p) = 0 then 0 else 1) := rfl
  have hlack2 : n_lacking_of n h p =
      Int.tdiv n (n_threads_of n h p) * n_threads_of n h p +
      (if Int.tmod n (n_threads_of n h p) = 0 then 0 else 1) *
        n_threads_of n h p - n := by
    show n_max_tasks_of n h p * n_threads_of n h p - n = _
    rw [hmax]
    ring
  have hcomm : Int.tdiv n (n_threads_of n h p) * n_threads_of n h p =
      n_threads_of n h p * Int.tdiv n (n_threads_of n h p) := mul_comm _ _
  refine ⟨?_, ?_, ?_⟩
  · rw [hmax]
    by_cases hr : Int.tmod n (n_threads_of n h p) = 0
    · rw [if_pos hr]
      rcases le_or_lt 1 (Int.tdiv n (n_threads_of n h p)) with hq1 | hq1
      · omega
      · exfalso
        have hmn : n_threads_of n h p * Int.tdiv n (n_threads_of n h p) ≤ 0 :=
          mul_nonpos_of_nonneg_of_nonpos (by omega) (by omega)
        omega
    · rw [if_neg hr]
      omega
  · rw [hlack2]
    split_ifs <;> omega
  · rw [hlack2]
    split_ifs <;> omega

/-- C3 (counterexample): at `n = 5`, `h = 3` (so `k = 3` workers, `5` not
divisible by `3`), worker `0` — the earliest-indexed — processes `2`
indices while worker `2` — the latest — processes `1`; the worker
receiving one fewer element is the latest-indexed one, not the earliest,
contradicting the claim. -/
theorem C3_counterexample :
    Int.tmod 5 (n_threads_of 5 3 4) ≠ 0 ∧
    worker_size 5 3 4 0 = 2 ∧ worker_size 5 3 4 2 = 1 ∧
    ¬ worker_size 5 3 4 0 ≤ worker_size 5 3 4 2 := by
  decide

/-- C3 (amended): the shortfall goes to the latest-indexed workers: for
every `n ≥ 1` and hints `h, p ≥ 0`, writing `k` for the worker count,
`m` for `n_max_tasks_per_thread` and `L` for `n_lacking_tasks`, we have
`m ≥ 1`, `0 ≤ L < k`, and worker `j` processes `m - 1` indices when
`k - L ≤ j` and `m` indices when `j < k - L` — so exactly the last `L`
workers (the highest-indexed ones) receive one fewer element than the
rest. -/
theorem C3_shortfall_on_latest_workers (n h p j : Int) (hn : 1 ≤ n)
    (hh : 0 ≤ h) (hp : 0 ≤ p) (hj0 : 0 ≤ j) (hjk : j < n_threads_of n h p) :
    1 ≤ n_max_tasks_of n h p ∧
    0 ≤ n_lacking_of n h p ∧
    n_lacking_of n h p < n_threads_of n h p ∧
    worker_size n h p j =
      (if n_threads_of n h p - n_lacking_of n h p ≤ j
        then n_max_tasks_of n h p - 1 else n_max_tasks_of n h p) := by
  obtain ⟨h1, h2, h3⟩ := n_max_lacking_bounds n h p hn hh hp
  have hsize : worker_size n h p j = n_max_tasks_of n h p -
      (if 0 ≤ j - n_threads_of n h p + n_lacking_of n h p then 1 else 0) := by
    unfold worker_size worker_end
    split_ifs <;> ring
  refine ⟨h1, h2, h3, ?_⟩
  rw [hsize]
  split_ifs <;> omega

/-- C3 (witness): the amended claim instantiated at `n = 5`, `h = 3`,
`p = 4`, worker `j = 2`. -/
theorem C3_witness :
    1 ≤ (5 : Int) ∧ 0 ≤ (3 : Int) ∧ 0 ≤ (4 : Int) ∧ 0 ≤ (2 : Int) ∧
    2 < n_threads_of 5 3 4 ∧
    (1 ≤ n_max_tasks_of 5 3 4 ∧
     0 ≤ n_lacking_of 5 3 4 ∧
     n_lacking_of 5 3 4 < n_threads_of 5 3 4 ∧
     worker_size 5 3 4 2 =
       (if n_threads_of 5 3 4 - n_lacking_of 5 3 4 ≤ 2
         then n_max_tasks_of 5 3 4 - 1 else n_max_tasks_of 5 3 4)) :=
  ⟨by decide, by decide, by decide, by decide, by decide,
    C3_shortfall_on_latest_workers 5 3 4 2 (by decide) (by decide) (by decide)
      (by decide) (by decide)⟩

------------------------------------------------------------------------
-- Supporting facts: on n ≥ 1 the worker ranges tile [0, n) exactly
-- (the coverage the code does deliver away from the n = 0 slip)
------------------------------------------------------------------------

lemma worker_start_zero (n h p : Int) (hn : 1 ≤ n) (hh : 0 ≤ h)
    (hp : 0 ≤ p) : worker_start n h p 0 = 0 := by
  obtain ⟨h1, h2, h3⟩ := n_max_lacking_bounds n h p hn hh hp
  have hk : 1 ≤ n_threads_of n h p := n_threads_pos n h p hn hh hp
  unfold worker_start
  omega

lemma worker_end_eq_next_start (n h p j : Int) :
    worker_end n h p j = worker_start n h p (j + 1) := by
  unfold worker_end worker_start
  have e : (j + 1) * n_max_tasks_of n h p
      = j * n_max_tasks_of n h p + n_max_tasks_of n h p := by ring
  split_ifs <;> omega

lemma worker_end_last (n h p : Int) (hn : 1 ≤ n) (hh : 0 ≤ h)
    (hp : 0 ≤ p) :
    worker_end n h p (n_threads_of n h p - 1) = n := by
  obtain ⟨h1, h2, h3⟩ := n_max_lacking_bounds n h p hn hh hp
  have hk : 1 ≤ n_threads_of n h p := n_threads_pos n h p hn hh hp
  have hLdef : n_lacking_of n h p
      = n_max_tasks_of n h p * n_threads_of n h p - n := rfl
  have e : (n_threads_of n h p - 1) * n_max_tasks_of n h p
      = n_max_tasks_of n h p * n_threads_of n h p - n_max_tasks_of n h p := by
    ring
  unfold worker_end worker_start
  split_ifs <;> omega

------------------------------------------------------------------------
-- gl_particle_system: add / update index-bounds structure
------------------------------------------------------------------------

/-- The `gl_particle_system` container state relevant to the simulation
loop: the length of the `particles` vector, the length of the `instances`
vector, and the `trail` count.  The element payloads (positions,
velocities, colours — `float` data) never influence control flow,
container sizes, or any subscript, so the embedding tracks sizes. -/
structure gl_particle_system where
  particles : Nat
  instances : Nat
  trail : Nat
deriving DecidableEq

/-- `gl_particle_system::add(...)`: both overloads end in
`particles.emplace_back(p);`, growing `particles` by one element. -/
def gl_particle_system.add (s : gl_particle_system) : gl_particle_system :=
  { s with particles := s.particles + 1 }

/-- `gl_particle_system::clear()`: `particles.clear();`. -/
def gl_particle_system.clear (s : gl_particle_system) : gl_particle_system :=
  { s with particles := 0 }

/-- `gl_particle_system::set_trail_count(trail_count)`. -/
def gl_particle_system.set_trail_count (s : gl_particle_system)
    (trail_count : Nat) : gl_particle_system :=
  { s with trail := trail_count }

/-- Bounds check for every subscript the simulation loop of
`gl_particle_system::update` performs once `instances` has size
`nInstances`:

```cpp
for (int i = 0; i < particles.size(); ++i)
  for (int trail_idx = 0; trail_idx < (trail + 1); ++trail_idx) {
    if (trail_idx >= 1) {
      particles[trail_idx].position -= ...;   // needs trail_idx < particles.size()
      particles[trail_idx].size *= ...;
    }
    instances[i].position_size = float4(particles[i]...);  // needs i < instances.size()
    instances[i].color = ...;
  }
```

`particles[i]` is in bounds by the loop condition; the two accesses that
can go out of bounds are `particles[trail_idx]` (when `trail_idx ≥ 1`)
and `instances[i]`. -/
def update_accesses_in_bounds (nParticles nInstances trail : Nat) : Bool :=
  (List.range nParticles).all fun i =>
    (List.range (trail + 1)).all fun trail_idx =>
      (decide (trail_idx = 0) || decide (trail_idx < nParticles)) &&
        decide (i < nInstances)

/-- `gl_particle_system::update(dt)`:

```cpp
if (particles.size() == 0) return;
if (!instances.size()) {
  instances.resize(particles.size());
  instanceBuffers.reset(new ping_pong_buffer<gl_buffer>(instances.size()));
}
// simulation loop (see update_accesses_in_bounds), then GPU upload
```

`instances` is resized only when it is empty; the simulation loop then
subscripts both vectors.  An out-of-bounds `operator[]` on `std::vector`
is undefined behaviour, rendered as `none`.  No statement of `update`
changes either vector's size after the resize, so on the in-bounds path
the resulting state is the input state with `instances` at its
(possibly freshly resized) size. -/
def gl_particle_system.update (s : gl_particle_system) :
    Option gl_particle_system :=
  if s.particles = 0 then some s
  else
    let inst := if s.instances = 0 then s.particles else s.instances
    if update_accesses_in_bounds s.particles inst s.trail then
      some { s with instances := inst }
    else none

------------------------------------------------------------------------
-- C10: bounds of the simulation loop's subscripts
------------------------------------------------------------------------

/-- C10 (code bug): the claim fails in exactly the scenario it names.
Trace: starting from an empty system, `add` one particle; the first
`update` sizes `instances` to `1` and stays in bounds; `add` a second
particle; the next `update` iterates `i` up to `particles.size() = 2`
without resizing `instances` (it is non-empty), so the write
`instances[1]` is out of bounds.  Separately, with one particle and
`trail = 5` set, the first `update` reads `particles[1]` out of bounds
in the trail branch. -/
theorem C10_update_out_of_bounds :
    gl_particle_system.update (gl_particle_system.add ⟨0, 0, 0⟩) =
      some ⟨1, 1, 0⟩ ∧
    gl_particle_system.update (gl_particle_system.add ⟨1, 1, 0⟩) = none ∧
    gl_particle_system.update
      (gl_particle_system.set_trail_count (gl_particle_system.add ⟨0, 0, 0⟩) 5)
      = none := by
  decide
